import Mathlib

/-!
Verification of the request-logging middleware of `panz3r/spa-to-http`
(`src/util/log.go`).

The middleware wraps an `http.Handler`; it runs the wrapped handler through a
metrics-capturing proxy over the response writer, then emits one structured
log record (JSON when `Pretty` is false, line-oriented text when `Pretty` is
true) to standard output.

Shallow embedding conventions:
* A wrapped handler's observable behaviour on the response writer is a finite
  trace of writer actions (`Header().Set`, `WriteHeader`, `Write`), possibly
  followed by abnormal termination (a Go panic), which we record as a flag.
* The underlying response writer is modelled as an explicit `Response` state;
  the host's stdout is modelled as the list of emitted lines.
* Elapsed wall-clock time between handler invocation and completion is an
  external input `elapsed : Nat` in nanoseconds (Go's `time.Duration` as
  produced by `time.Since` on the monotonic clock, hence non-negative).
* `httpsnoop.CaptureMetrics`, `requestGetRemoteAddress`, `net.IP`
  serialization and the `slog` handlers are not part of the repository's
  sources; they are modelled from the specification, as marked on each
  definition.
-/

/-- An observable action a handler performs on its response writer. -/
inductive WriterAction where
  | setHeader (key value : String)
  | writeHeader (code : Int)
  | write (chunk : List Nat)
deriving DecidableEq

/-- The state of the real (underlying) response writer: the status line sent
(`none` until headers are flushed), the response headers, and the body bytes
written so far. -/
structure Response where
  status : Option Int
  headers : List (String × String)
  body : List Nat
deriving DecidableEq

/-- The response writer before anything is written. -/
def emptyResponse : Response := { status := none, headers := [], body := [] }

/-- Go `http.ResponseWriter` semantics for one action: `Header().Set` before
the header flush adds a header; the first `WriteHeader` fixes the status and
later calls are ignored; `Write` implicitly sends status 200 first if no
status was sent, then appends the bytes to the body. -/
def applyAction (resp : Response) (a : WriterAction) : Response :=
  match a with
  | .setHeader k v =>
      if resp.status = none then
        { resp with headers := resp.headers ++ [(k, v)] }
      else resp
  | .writeHeader c =>
      if resp.status = none then { resp with status := some c } else resp
  | .write p =>
      let resp1 :=
        if resp.status = none then { resp with status := some 200 } else resp
      { resp1 with body := resp1.body ++ p }

/-- Running a trace of writer actions against the real response writer. -/
def runWriter (resp : Response) (as : List WriterAction) : Response :=
  as.foldl applyAction resp

/-- The metrics snapshot of `httpsnoop.CaptureMetrics`: status code, number
of response body bytes written, and elapsed duration in nanoseconds. -/
structure Metrics where
  Code : Int
  Written : Int
  Duration : Nat
deriving DecidableEq

/-- Internal state of the metrics-capturing proxy: the metrics accumulated so
far, whether an explicit status was already recorded, and the pass-through
state of the real writer. -/
structure CaptureState where
  metrics : Metrics
  headerWritten : Bool
  resp : Response
deriving DecidableEq

/-- Modelled from the spec: one step of the intercepting proxy installed by
`httpsnoop.CaptureMetrics` (vendored dependency, not under the repository's
sources). Per the spec it records the first status code explicitly set and
the cumulative byte count across all writes, and passes every call through
to the real writer unchanged. -/
def captureStep (st : CaptureState) (a : WriterAction) : CaptureState :=
  match a with
  | .setHeader k v =>
      { st with resp := applyAction st.resp (.setHeader k v) }
  | .writeHeader c =>
      if st.headerWritten then
        { st with resp := applyAction st.resp (.writeHeader c) }
      else
        { metrics := { st.metrics with Code := c },
          headerWritten := true,
          resp := applyAction st.resp (.writeHeader c) }
  | .write p =>
      { st with
        metrics := { st.metrics with Written := st.metrics.Written + (p.length : Int) },
        resp := applyAction st.resp (.write p) }

/-- Modelled from the spec: `httpsnoop.CaptureMetrics` (not under the
repository's sources). It runs the handler's writer actions through the
intercepting proxy, starting from code 200 (the implicit success status used
when the handler never sets one) and zero bytes written, and reports the
elapsed wall-clock time of the invocation. Returns the metrics snapshot and
the resulting state of the real writer. -/
def captureMetrics (as : List WriterAction) (elapsed : Nat) (resp0 : Response) :
    Metrics × Response :=
  let st := as.foldl captureStep
    { metrics := { Code := 200, Written := 0, Duration := 0 },
      headerWritten := false,
      resp := resp0 }
  ({ st.metrics with Duration := elapsed }, st.resp)

/-- Go `http.Header.Get`: the first value stored under the key, or the empty
string when the header is absent. -/
def headerGet (hs : List (String × String)) (key : String) : String :=
  match hs.find? (fun kv => kv.1 == key) with
  | some kv => kv.2
  | none => ""

/-- An inbound HTTP request: verb, request target as received on the request
line (including any query string, Go's `r.URL.String()`), headers, and the
reported remote endpoint `r.RemoteAddr`. -/
structure Request where
  method : String
  url : String
  headers : List (String × String)
  remoteAddr : String

/-- What a wrapped handler does on one request: the writer actions it
performs, and whether it then terminates abnormally (panics). -/
structure HandlerRun where
  actions : List WriterAction
  panics : Bool

/-- A handler maps a request to its observable behaviour. -/
abbrev Handler := Request → HandlerRun

/-- Splits a character list at every occurrence of the separator. -/
def splitChar (c : Char) : List Char → List (List Char)
  | [] => [[]]
  | x :: xs =>
      let rest := splitChar c xs
      if x = c then [] :: rest
      else
        match rest with
        | [] => [[x]]
        | y :: ys => (x :: y) :: ys

/-- Reads a non-empty all-digit character list as a number. -/
def charsToNatAux : List Char → Nat → Option Nat
  | [], acc => some acc
  | c :: cs, acc =>
      if c.isDigit then charsToNatAux cs (acc * 10 + (c.toNat - 48)) else none

/-- Reads a character list as a decimal number; `none` when empty or not all
digits. -/
def charsToNat? : List Char → Option Nat
  | [] => none
  | cs => charsToNatAux cs 0

/-- One dotted-quad component: one to three digits valued at most 255. -/
def isOctet (cs : List Char) : Bool :=
  decide (0 < cs.length) && decide (cs.length ≤ 3) &&
    (match charsToNat? cs with
     | some n => decide (n ≤ 255)
     | none => false)

/-- Modelled from the spec: a dotted-quad IPv4 check standing in for
`net.ParseIP` as used by the address-resolution helper (neither is under the
repository's sources); the spec only requires that a parseable address yield
an address and an unparseable one yield none. -/
def isIPv4 (s : String) : Bool :=
  let parts := splitChar '.' s.data
  decide (parts.length = 4) && parts.all isOctet

/-- Modelled from the spec: `net.ParseIP`; `none` models the `nil` IP
returned for unparseable input. -/
def parseIP (s : String) : Option String :=
  if isIPv4 s then some s else none

/-- Modelled from the spec: stripping the port from `r.RemoteAddr`
(`host:port`): everything before the last colon, or the string itself when
it has no colon. -/
def ipAddrFromRemoteAddr (s : String) : String :=
  match (splitChar ':' s.data).dropLast with
  | [] => s
  | parts => String.mk (List.intercalate [':'] parts)

/-- Removes leading and trailing spaces. -/
def trimSpaces (cs : List Char) : List Char :=
  ((cs.dropWhile (fun c => c = ' ')).reverse.dropWhile (fun c => c = ' ')).reverse

/-- Modelled from the spec: `requestGetRemoteAddress` (declared in the
repository but not under the provided sources). Per the spec it produces a
single best-effort client IP: when a forwarding header is present its first
address is preferred, otherwise the request's reported remote endpoint is
used; unparseable input yields no address rather than failing. -/
def requestGetRemoteAddress (r : Request) : Option String :=
  let fwd := headerGet r.headers "X-Forwarded-For"
  if fwd == "" then parseIP (ipAddrFromRemoteAddr r.remoteAddr)
  else parseIP (String.mk (trimSpaces ((splitChar ',' fwd.data).headD fwd.data)))

/-- Modelled from the spec: the `slog` serialization of a `net.IP` field
value — the textual address, or the empty string for a `nil` IP. -/
def ipString : Option String → String
  | some s => s
  | none => ""

/-- `HTTPReqInfo` of `src/util/log.go`: the per-request record assembled by
the middleware. `duration` is Go's `time.Duration` in nanoseconds;
`ipAddress` is the possibly-`nil` `net.IP`. -/
structure HTTPReqInfo where
  method : String
  path : String
  code : Int
  size : Int
  duration : Nat
  ipAddress : Option String
  userAgent : String
  referer : String

/-- A value of a structured log field. -/
inductive LogValue where
  | str (s : String)
  | int (i : Int)
deriving DecidableEq

/-- A structured log record: the fixed message label plus ordered key-value
fields, before serialization by the configured `slog` handler. -/
structure LogRecord where
  msg : String
  fields : List (String × LogValue)
deriving DecidableEq

/-- `logHTTPReqInfo` of `src/util/log.go`: builds the emitted record with the
fixed message "HTTP Request" and the eight fields, converting the duration
to milliseconds (`slog.Int64("duration", ri.duration.Milliseconds())`). -/
def logHTTPReqInfo (ri : HTTPReqInfo) : LogRecord :=
  { msg := "HTTP Request",
    fields :=
      [("method", .str ri.method),
       ("path", .str ri.path),
       ("code", .int ri.code),
       ("size", .int ri.size),
       ("duration", .int ((ri.duration / 1000000 : Nat) : Int)),
       ("ipAddress", .str (ipString ri.ipAddress)),
       ("userAgent", .str ri.userAgent),
       ("referer", .str ri.referer)] }

/-- Escapes quote and backslash characters. -/
def escapeChars : List Char → List Char
  | [] => []
  | c :: cs =>
      if c = Char.ofNat 34 then Char.ofNat 92 :: Char.ofNat 34 :: escapeChars cs
      else if c = Char.ofNat 92 then Char.ofNat 92 :: Char.ofNat 92 :: escapeChars cs
      else c :: escapeChars cs

/-- Minimal JSON string escaping (quote and backslash). -/
def jsonEscape (s : String) : String :=
  String.mk (escapeChars s.data)

/-- JSON rendering of a field value. -/
def jsonValueStr : LogValue → String
  | .str s => "\"" ++ jsonEscape s ++ "\""
  | .int i => toString i

/-- JSON rendering of the key-value fields, each preceded by a comma. -/
def jsonFieldsStr : List (String × LogValue) → String
  | [] => ""
  | (k, v) :: rest => ",\"" ++ jsonEscape k ++ "\":" ++ jsonValueStr v ++ jsonFieldsStr rest

/-- Modelled from the spec: the machine-parsable single-line JSON format of
`slog.NewJSONHandler` (standard library, not under the repository's
sources); the record timestamp is omitted as it is environmental. -/
def serializeJSON (lr : LogRecord) : String :=
  "\x7b\"level\":\"INFO\",\"msg\":" ++ jsonValueStr (.str lr.msg) ++
    jsonFieldsStr lr.fields ++ "\x7d"

/-- Text rendering of a field value: quoted when the string contains a
space. -/
def textValueStr : LogValue → String
  | .str s => if s.data.any (fun c => c = ' ') then "\"" ++ s ++ "\"" else s
  | .int i => toString i

/-- Text rendering of the key-value fields, space separated. -/
def textFieldsStr : List (String × LogValue) → String
  | [] => ""
  | (k, v) :: rest => " " ++ k ++ "=" ++ textValueStr v ++ textFieldsStr rest

/-- Modelled from the spec: the human-readable line-oriented text format of
`slog.NewTextHandler` (standard library, not under the repository's
sources). -/
def serializeText (lr : LogRecord) : String :=
  "level=INFO msg=" ++ textValueStr (.str lr.msg) ++ textFieldsStr lr.fields

/-- The serialization selected by the `pretty` flag: text when true, JSON
when false. -/
def serializeRecord (pretty : Bool) (lr : LogRecord) : String :=
  if pretty then serializeText lr else serializeJSON lr

/-- `LogRequestHandlerOptions` of `src/util/log.go`. -/
structure LogRequestHandlerOptions where
  Pretty : Bool

/-- The handler returned by `LogRequestHandler`: the logger (and with it the
output format) is constructed once, at wrap time, from `opt.Pretty`; the
wrapped handler is captured alongside it. -/
structure WrappedHandler where
  pretty : Bool
  inner : Handler

/-- `LogRequestHandler` of `src/util/log.go`: chooses the `slog` handler
(text when `opt.Pretty`, JSON otherwise) once at wrap time and returns the
wrapping handler. -/
def LogRequestHandler (h : Handler) (opt : LogRequestHandlerOptions) : WrappedHandler :=
  { pretty := opt.Pretty, inner := h }

/-- The `HTTPReqInfo` literal built inside `LogRequestHandler`'s closure in
`src/util/log.go` from the request and the captured metrics. -/
def handlerReqInfo (h : Handler) (r : Request) (elapsed : Nat) (resp0 : Response) :
    HTTPReqInfo :=
  let mtr := (captureMetrics (h r).actions elapsed resp0).1
  { method := r.method,
    path := r.url,
    code := mtr.Code,
    size := mtr.Written,
    duration := mtr.Duration,
    ipAddress := requestGetRemoteAddress r,
    userAgent := headerGet r.headers "User-Agent",
    referer := headerGet r.headers "Referer" }

/-- The observable outcome of one request through the wrapper: the state of
the real response writer, the records the middleware emitted, their
serialized lines as written to standard output, the lines actually accepted
by the output stream, and whether the request terminated abnormally. -/
structure WrapOutcome where
  response : Response
  records : List LogRecord
  lines : List String
  delivered : List String
  panicked : Bool
deriving DecidableEq

/-- One request through the handler returned by `LogRequestHandler`
(`src/util/log.go`): the wrapped handler runs through
`httpsnoop.CaptureMetrics` against the real writer; if it panics the panic
propagates before `logHTTPReqInfo` is reached and nothing is logged;
otherwise exactly one record is built and serialized to standard output.
`sinkOk` models whether the write to standard output succeeds; `slog`
discards the write error either way. -/
def serveHTTP (wh : WrappedHandler) (r : Request) (elapsed : Nat) (resp0 : Response)
    (sinkOk : Bool) : WrapOutcome :=
  let run := wh.inner r
  let resp := (captureMetrics run.actions elapsed resp0).2
  if run.panics then
    { response := resp, records := [], lines := [], delivered := [], panicked := true }
  else
    let lr := logHTTPReqInfo (handlerReqInfo wh.inner r elapsed resp0)
    let line := serializeRecord wh.pretty lr
    { response := resp,
      records := [lr],
      lines := [line],
      delivered := if sinkOk then [line] else [],
      panicked := false }

/-- Direct use of a handler, without the logging wrapper: the same writer
actions applied to the same real writer, the same abnormal termination. -/
def runDirect (h : Handler) (r : Request) (resp0 : Response) : Response × Bool :=
  ((h r).actions.foldl applyAction resp0, (h r).panics)

/-- The first status code a trace explicitly sets via `WriteHeader`, if
any — the claim-side reading of "the first status explicitly set by the
wrapped handler". -/
def firstExplicitStatus : List WriterAction → Option Int
  | [] => none
  | .writeHeader c :: _ => some c
  | .setHeader _ _ :: rest => firstExplicitStatus rest
  | .write _ :: rest => firstExplicitStatus rest

/-- The response body bytes a trace writes, in order. -/
def writtenBytes : List WriterAction → List Nat
  | [] => []
  | .write p :: rest => p ++ writtenBytes rest
  | .setHeader _ _ :: rest => writtenBytes rest
  | .writeHeader _ :: rest => writtenBytes rest

/-- Looks a key up among a record's fields (first match). -/
def fieldVal (lr : LogRecord) (k : String) : Option LogValue :=
  match lr.fields.find? (fun kv => kv.1 == k) with
  | some kv => some kv.2
  | none => none

/-- The canonical key set the spec requires of the structured record. -/
def requiredKeys : List String :=
  ["method", "path", "code", "size", "duration", "ipAddress", "userAgent", "referer"]

/-- A concrete request carrying both identity headers. -/
def sampleRequest : Request :=
  { method := "GET",
    url := "/api/test",
    headers := [("User-Agent", "Mozilla/5.0"), ("Referer", "https://example.com")],
    remoteAddr := "192.168.1.1:12345" }

/-- A concrete request with no headers, a query string in the target, and an
unparseable remote endpoint. -/
def bareRequest : Request :=
  { method := "PUT",
    url := "/api/update?id=123&param=value",
    headers := [],
    remoteAddr := "not an address" }

/-- A concrete handler responding 200 with a 13-byte body. -/
def okHandler : Handler := fun _ =>
  { actions := [.writeHeader 200, .write (List.replicate 13 97)], panics := false }

/-- A concrete handler that sets 404 explicitly, then tries 500, and writes
no body. -/
def notFoundHandler : Handler := fun _ =>
  { actions := [.writeHeader 404, .writeHeader 500], panics := false }

/-- A concrete handler that never touches the response writer. -/
def silentHandler : Handler := fun _ =>
  { actions := [], panics := false }

/-- A concrete handler that writes two bytes and then panics. -/
def panickingHandler : Handler := fun _ =>
  { actions := [.write [104, 105]], panics := true }

/-- The proxy passes each single call through to the real writer. -/
theorem captureStep_resp (st : CaptureState) (a : WriterAction) :
    (captureStep st a).resp = applyAction st.resp a := by
  cases a with
  | setHeader k v => rfl
  | writeHeader c =>
      by_cases hw : st.headerWritten <;> simp [captureStep, hw]
  | write p => rfl

/-- The proxy passes a whole trace through to the real writer. -/
theorem foldl_captureStep_resp (as : List WriterAction) (st : CaptureState) :
    (as.foldl captureStep st).resp = runWriter st.resp as := by
  induction as generalizing st with
  | nil => rfl
  | cons a rest ih =>
      show (rest.foldl captureStep (captureStep st a)).resp = _
      rw [ih, captureStep_resp]
      rfl

/-- The code the proxy accumulates is the first explicitly set status, with
the incoming code as the default. -/
theorem foldl_captureStep_code (as : List WriterAction) (st : CaptureState) :
    (as.foldl captureStep st).metrics.Code =
      if st.headerWritten then st.metrics.Code
      else (firstExplicitStatus as).getD st.metrics.Code := by
  induction as generalizing st with
  | nil =>
      by_cases hw : st.headerWritten <;> simp [hw, firstExplicitStatus]
  | cons a rest ih =>
      cases a with
      | setHeader k v =>
          show (rest.foldl captureStep (captureStep st (.setHeader k v))).metrics.Code = _
          rw [ih]
          simp [captureStep, firstExplicitStatus]
      | writeHeader c =>
          show (rest.foldl captureStep (captureStep st (.writeHeader c))).metrics.Code = _
          rw [ih]
          by_cases hw : st.headerWritten <;> simp [captureStep, hw, firstExplicitStatus]
      | write p =>
          show (rest.foldl captureStep (captureStep st (.write p))).metrics.Code = _
          rw [ih]
          simp [captureStep, firstExplicitStatus]

/-- The byte count the proxy accumulates is the total length of all writes
in the trace. -/
theorem foldl_captureStep_written (as : List WriterAction) (st : CaptureState) :
    (as.foldl captureStep st).metrics.Written =
      st.metrics.Written + ((writtenBytes as).length : Int) := by
  induction as generalizing st with
  | nil => simp [writtenBytes]
  | cons a rest ih =>
      cases a with
      | setHeader k v =>
          show (rest.foldl captureStep (captureStep st (.setHeader k v))).metrics.Written = _
          rw [ih]
          simp [captureStep, writtenBytes]
      | writeHeader c =>
          show (rest.foldl captureStep (captureStep st (.writeHeader c))).metrics.Written = _
          rw [ih]
          by_cases hw : st.headerWritten <;> simp [captureStep, hw, writtenBytes]
      | write p =>
          show (rest.foldl captureStep (captureStep st (.write p))).metrics.Written = _
          rw [ih]
          simp [captureStep, writtenBytes]
          ring

/-- One writer action appends exactly its write payload to the body. -/
theorem applyAction_body (resp : Response) (a : WriterAction) :
    (applyAction resp a).body = resp.body ++ writtenBytes [a] := by
  cases a with
  | setHeader k v =>
      by_cases hs : resp.status = none <;> simp [applyAction, hs, writtenBytes]
  | writeHeader c =>
      by_cases hs : resp.status = none <;> simp [applyAction, hs, writtenBytes]
  | write p =>
      by_cases hs : resp.status = none <;> simp [applyAction, hs, writtenBytes]

/-- Running a trace appends exactly its write payloads, in order, to the
body. -/
theorem runWriter_body (resp : Response) (as : List WriterAction) :
    (runWriter resp as).body = resp.body ++ writtenBytes as := by
  induction as generalizing resp with
  | nil => simp [runWriter, writtenBytes]
  | cons a rest ih =>
      show (runWriter (applyAction resp a) rest).body = _
      rw [ih, applyAction_body]
      cases a <;> simp [writtenBytes]

/-- The pass-through component of the metrics capture equals the direct run
of the trace against the writer. -/
theorem captureMetrics_resp (as : List WriterAction) (t : Nat) (resp0 : Response) :
    (captureMetrics as t resp0).2 = runWriter resp0 as := by
  simp [captureMetrics, foldl_captureStep_resp]

/-- The captured code is the first explicitly set status, defaulting to
200. -/
theorem captureMetrics_code (as : List WriterAction) (t : Nat) (resp0 : Response) :
    (captureMetrics as t resp0).1.Code = (firstExplicitStatus as).getD 200 := by
  simp [captureMetrics, foldl_captureStep_code]

/-- The captured byte count is the total length of the trace's writes. -/
theorem captureMetrics_written (as : List WriterAction) (t : Nat) (resp0 : Response) :
    (captureMetrics as t resp0).1.Written = ((writtenBytes as).length : Int) := by
  simp [captureMetrics, foldl_captureStep_written]

/-- The captured duration is the elapsed wall-clock time of the
invocation. -/
theorem captureMetrics_duration (as : List WriterAction) (t : Nat) (resp0 : Response) :
    (captureMetrics as t resp0).1.Duration = t := rfl

/-- Key lookup in the emitted record: the size field. -/
theorem fieldVal_size (ri : HTTPReqInfo) :
    fieldVal (logHTTPReqInfo ri) "size" = some (.int ri.size) := rfl

/-- Key lookup in the emitted record: the code field. -/
theorem fieldVal_code (ri : HTTPReqInfo) :
    fieldVal (logHTTPReqInfo ri) "code" = some (.int ri.code) := rfl

/-- Key lookup in the emitted record: the method field. -/
theorem fieldVal_method (ri : HTTPReqInfo) :
    fieldVal (logHTTPReqInfo ri) "method" = some (.str ri.method) := rfl

/-- Key lookup in the emitted record: the path field. -/
theorem fieldVal_path (ri : HTTPReqInfo) :
    fieldVal (logHTTPReqInfo ri) "path" = some (.str ri.path) := rfl

/-- Key lookup in the emitted record: the duration field, already converted
to milliseconds. -/
theorem fieldVal_duration (ri : HTTPReqInfo) :
    fieldVal (logHTTPReqInfo ri) "duration" =
      some (.int ((ri.duration / 1000000 : Nat) : Int)) := rfl

/-- Key lookup in the emitted record: the ipAddress field. -/
theorem fieldVal_ipAddress (ri : HTTPReqInfo) :
    fieldVal (logHTTPReqInfo ri) "ipAddress" = some (.str (ipString ri.ipAddress)) := rfl

/-- Key lookup in the emitted record: the userAgent field. -/
theorem fieldVal_userAgent (ri : HTTPReqInfo) :
    fieldVal (logHTTPReqInfo ri) "userAgent" = some (.str ri.userAgent) := rfl

/-- Key lookup in the emitted record: the referer field. -/
theorem fieldVal_referer (ri : HTTPReqInfo) :
    fieldVal (logHTTPReqInfo ri) "referer" = some (.str ri.referer) := rfl

/-- Unfolding of a non-panicking run of the wrapped handler. -/
theorem serveHTTP_of_normal (wh : WrappedHandler) (r : Request) (t : Nat)
    (resp0 : Response) (sinkOk : Bool) (hp : (wh.inner r).panics = false) :
    serveHTTP wh r t resp0 sinkOk =
      { response := runWriter resp0 (wh.inner r).actions,
        records := [logHTTPReqInfo (handlerReqInfo wh.inner r t resp0)],
        lines := [serializeRecord wh.pretty (logHTTPReqInfo (handlerReqInfo wh.inner r t resp0))],
        delivered :=
          if sinkOk then
            [serializeRecord wh.pretty (logHTTPReqInfo (handlerReqInfo wh.inner r t resp0))]
          else [],
        panicked := false } := by
  simp [serveHTTP, hp, captureMetrics_resp]

/-- Unfolding of a panicking run of the wrapped handler. -/
theorem serveHTTP_of_panic (wh : WrappedHandler) (r : Request) (t : Nat)
    (resp0 : Response) (sinkOk : Bool) (hp : (wh.inner r).panics = true) :
    serveHTTP wh r t resp0 sinkOk =
      { response := runWriter resp0 (wh.inner r).actions,
        records := [],
        lines := [],
        delivered := [],
        panicked := true } := by
  simp [serveHTTP, hp, captureMetrics_resp]

/-- Claim C1: for every request handled by the handler returned by
`LogRequestHandler`, the `size` field of the emitted log record equals
exactly the cumulative number of bytes the wrapped handler wrote to the
response body, and is 0 when the wrapped handler writes no body. -/
theorem log_size_eq_bytes_written (h : Handler) (opt : LogRequestHandlerOptions)
    (r : Request) (t : Nat) (resp0 : Response) (sinkOk : Bool)
    (hp : (h r).panics = false) :
    (serveHTTP (LogRequestHandler h opt) r t resp0 sinkOk).records =
      [logHTTPReqInfo (handlerReqInfo h r t resp0)] ∧
    fieldVal (logHTTPReqInfo (handlerReqInfo h r t resp0)) "size" =
      some (.int ((writtenBytes (h r).actions).length : Int)) ∧
    (serveHTTP (LogRequestHandler h opt) r t resp0 sinkOk).response.body =
      resp0.body ++ writtenBytes (h r).actions ∧
    (writtenBytes (h r).actions = [] →
      fieldVal (logHTTPReqInfo (handlerReqInfo h r t resp0)) "size" = some (.int 0)) := by
  have hsize : (handlerReqInfo h r t resp0).size =
      ((writtenBytes (h r).actions).length : Int) := by
    simp [handlerReqInfo, captureMetrics_written]
  refine ⟨?_, ?_, ?_, ?_⟩
  · rw [serveHTTP_of_normal _ _ _ _ _ hp]
    rfl
  · rw [fieldVal_size, hsize]
  · rw [serveHTTP_of_normal _ _ _ _ _ hp]
    exact runWriter_body resp0 (h r).actions
  · intro hnone
    rw [fieldVal_size, hsize, hnone]
    rfl

/-- Witness for C1: a handler writing a 13-byte body yields size 13. -/
theorem log_size_eq_bytes_written_witness :
    (okHandler sampleRequest).panics = false ∧
    fieldVal (logHTTPReqInfo (handlerReqInfo okHandler sampleRequest 0 emptyResponse)) "size" =
      some (.int 13) := by
  refine ⟨rfl, ?_⟩
  have h1 := (log_size_eq_bytes_written okHandler { Pretty := false } sampleRequest 0
    emptyResponse true rfl).2.1
  exact h1.trans rfl

/-- Claim C2: for every request handled by the handler returned by
`LogRequestHandler`, the `code` field of the emitted log record equals the
first status code the wrapped handler explicitly set, and equals 200 if the
wrapped handler never explicitly set a status code. -/
theorem log_code_first_explicit_status (h : Handler) (opt : LogRequestHandlerOptions)
    (r : Request) (t : Nat) (resp0 : Response) (sinkOk : Bool)
    (hp : (h r).panics = false) :
    (serveHTTP (LogRequestHandler h opt) r t resp0 sinkOk).records =
      [logHTTPReqInfo (handlerReqInfo h r t resp0)] ∧
    fieldVal (logHTTPReqInfo (handlerReqInfo h r t resp0)) "code" =
      some (.int ((firstExplicitStatus (h r).actions).getD 200)) ∧
    (firstExplicitStatus (h r).actions = none →
      fieldVal (logHTTPReqInfo (handlerReqInfo h r t resp0)) "code" = some (.int 200)) := by
  have hcode : (handlerReqInfo h r t resp0).code =
      (firstExplicitStatus (h r).actions).getD 200 := by
    simp [handlerReqInfo, captureMetrics_code]
  refine ⟨?_, ?_, ?_⟩
  · rw [serveHTTP_of_normal _ _ _ _ _ hp]
    rfl
  · rw [fieldVal_code, hcode]
  · intro hnone
    rw [fieldVal_code, hcode, hnone]
    rfl

/-- Witness for C2: a handler that sets 404 explicitly and then tries 500 is
logged with code 404, and a handler that never sets a status is logged
with code 200. -/
theorem log_code_first_explicit_status_witness :
    (notFoundHandler sampleRequest).panics = false ∧
    fieldVal (logHTTPReqInfo (handlerReqInfo notFoundHandler sampleRequest 0 emptyResponse))
      "code" = some (.int 404) ∧
    fieldVal (logHTTPReqInfo (handlerReqInfo silentHandler sampleRequest 0 emptyResponse))
      "code" = some (.int 200) := by
  refine ⟨rfl, ?_, ?_⟩
  · have h1 := (log_code_first_explicit_status notFoundHandler { Pretty := false }
      sampleRequest 0 emptyResponse true rfl).2.1
    exact h1.trans rfl
  · exact (log_code_first_explicit_status silentHandler { Pretty := false }
      sampleRequest 0 emptyResponse true rfl).2.2 rfl

/-- Counterexample to claim C3 as stated: on abnormal termination of the
wrapped handler the panic propagates out of the metrics capture before
`logHTTPReqInfo` is reached, so no record at all is emitted — not even a
best-effort partial one. -/
theorem panic_partial_record_counterexample :
    (serveHTTP (LogRequestHandler panickingHandler { Pretty := false })
        sampleRequest 5 emptyResponse true).panicked = true ∧
    (serveHTTP (LogRequestHandler panickingHandler { Pretty := false })
        sampleRequest 5 emptyResponse true).records = [] :=
  ⟨rfl, rfl⟩

/-- Claim C3 (amended): for every request, the handler returned by
`LogRequestHandler` emits exactly one log record when the wrapped handler
terminates normally, regardless of the response it produced; abnormal
termination of the wrapped handler propagates unchanged to the caller, and
in that case no log record is emitted. -/
theorem one_record_iff_normal_termination (h : Handler) (opt : LogRequestHandlerOptions)
    (r : Request) (t : Nat) (resp0 : Response) (sinkOk : Bool) :
    (serveHTTP (LogRequestHandler h opt) r t resp0 sinkOk).panicked = (h r).panics ∧
    (serveHTTP (LogRequestHandler h opt) r t resp0 sinkOk).records.length =
      (if (h r).panics then 0 else 1) := by
  by_cases hp : (h r).panics
  · rw [serveHTTP_of_panic _ _ _ _ _ hp]
    simp [hp]
  · rw [serveHTTP_of_normal _ _ _ _ _ (Bool.not_eq_true _ |>.mp hp)]
    simp [hp]

/-- Claim C4: for every request and every wrapped handler, the response
(status, headers, body) observed by the original caller is identical whether
the handler is used directly or wrapped by `LogRequestHandler`; the wrapper
passes everything through to the real response writer unchanged. -/
theorem wrapper_response_transparent (h : Handler) (opt : LogRequestHandlerOptions)
    (r : Request) (t : Nat) (resp0 : Response) (sinkOk : Bool) :
    (serveHTTP (LogRequestHandler h opt) r t resp0 sinkOk).response =
      (runDirect h r resp0).1 ∧
    (serveHTTP (LogRequestHandler h opt) r t resp0 sinkOk).panicked =
      (runDirect h r resp0).2 := by
  by_cases hp : (h r).panics
  · rw [serveHTTP_of_panic _ _ _ _ _ hp]
    exact ⟨rfl, by simp [runDirect, hp]⟩
  · rw [serveHTTP_of_normal _ _ _ _ _ (Bool.not_eq_true _ |>.mp hp)]
    exact ⟨rfl, by simp [runDirect, hp]⟩

/-- Projection of the assembled record: method. -/
theorem handlerReqInfo_method (h : Handler) (r : Request) (t : Nat) (resp0 : Response) :
    (handlerReqInfo h r t resp0).method = r.method := rfl

/-- Projection of the assembled record: path. -/
theorem handlerReqInfo_path (h : Handler) (r : Request) (t : Nat) (resp0 : Response) :
    (handlerReqInfo h r t resp0).path = r.url := rfl

/-- Projection of the assembled record: userAgent. -/
theorem handlerReqInfo_userAgent (h : Handler) (r : Request) (t : Nat) (resp0 : Response) :
    (handlerReqInfo h r t resp0).userAgent = headerGet r.headers "User-Agent" := rfl

/-- Projection of the assembled record: referer. -/
theorem handlerReqInfo_referer (h : Handler) (r : Request) (t : Nat) (resp0 : Response) :
    (handlerReqInfo h r t resp0).referer = headerGet r.headers "Referer" := rfl

/-- Projection of the assembled record: ipAddress. -/
theorem handlerReqInfo_ipAddress (h : Handler) (r : Request) (t : Nat) (resp0 : Response) :
    (handlerReqInfo h r t resp0).ipAddress = requestGetRemoteAddress r := rfl

/-- Projection of the assembled record: duration, in nanoseconds. -/
theorem handlerReqInfo_duration (h : Handler) (r : Request) (t : Nat) (resp0 : Response) :
    (handlerReqInfo h r t resp0).duration = t := rfl

/-- Claim C5: for every request, when the wrap-time option `pretty` is false
the emitted line is the single JSON serialization of a key-value record
holding exactly the keys method, path, code, size, duration, ipAddress,
userAgent, referer, under the fixed message label "HTTP Request"; when
`pretty` is true the human-readable text serialization of the same record is
emitted instead; in both cases the line goes to the standard-output model. -/
theorem emission_format_and_keys (h : Handler) (r : Request) (t : Nat)
    (resp0 : Response) (sinkOk : Bool) (hp : (h r).panics = false) :
    (∃ lr, (serveHTTP (LogRequestHandler h { Pretty := false }) r t resp0 sinkOk).records = [lr] ∧
      (serveHTTP (LogRequestHandler h { Pretty := false }) r t resp0 sinkOk).lines =
        [serializeJSON lr] ∧
      lr.msg = "HTTP Request" ∧
      lr.fields.map Prod.fst = requiredKeys) ∧
    (∃ lr, (serveHTTP (LogRequestHandler h { Pretty := true }) r t resp0 sinkOk).records = [lr] ∧
      (serveHTTP (LogRequestHandler h { Pretty := true }) r t resp0 sinkOk).lines =
        [serializeText lr]) := by
  constructor
  · refine ⟨logHTTPReqInfo (handlerReqInfo h r t resp0), ?_, ?_, rfl, rfl⟩
    · rw [serveHTTP_of_normal _ _ _ _ _ hp]
      rfl
    · rw [serveHTTP_of_normal _ _ _ _ _ hp]
      rfl
  · refine ⟨logHTTPReqInfo (handlerReqInfo h r t resp0), ?_, ?_⟩
    · rw [serveHTTP_of_normal _ _ _ _ _ hp]
      rfl
    · rw [serveHTTP_of_normal _ _ _ _ _ hp]
      rfl

/-- Witness for C5: a concrete 200-response run, with `pretty` false, emits
one record whose keys are exactly the canonical set. -/
theorem emission_format_and_keys_witness :
    (okHandler sampleRequest).panics = false ∧
    (∃ lr, (serveHTTP (LogRequestHandler okHandler { Pretty := false })
        sampleRequest 7 emptyResponse true).records = [lr] ∧
      (serveHTTP (LogRequestHandler okHandler { Pretty := false })
        sampleRequest 7 emptyResponse true).lines = [serializeJSON lr] ∧
      lr.msg = "HTTP Request" ∧
      lr.fields.map Prod.fst = requiredKeys) :=
  ⟨rfl, (emission_format_and_keys okHandler sampleRequest 7 emptyResponse true rfl).1⟩

/-- Claim C6: the `userAgent` and `referer` fields are always present and
hold the verbatim header values; an absent User-Agent or Referer header
yields an empty-string field value, not an omitted or null field. -/
theorem absent_headers_empty_fields (h : Handler) (opt : LogRequestHandlerOptions)
    (r : Request) (t : Nat) (resp0 : Response) (sinkOk : Bool)
    (hp : (h r).panics = false) :
    (serveHTTP (LogRequestHandler h opt) r t resp0 sinkOk).records =
      [logHTTPReqInfo (handlerReqInfo h r t resp0)] ∧
    fieldVal (logHTTPReqInfo (handlerReqInfo h r t resp0)) "userAgent" =
      some (.str (headerGet r.headers "User-Agent")) ∧
    fieldVal (logHTTPReqInfo (handlerReqInfo h r t resp0)) "referer" =
      some (.str (headerGet r.headers "Referer")) ∧
    (r.headers.find? (fun kv => kv.1 == "User-Agent") = none →
      fieldVal (logHTTPReqInfo (handlerReqInfo h r t resp0)) "userAgent" =
        some (.str "")) ∧
    (∀ kv, r.headers.find? (fun kv2 => kv2.1 == "User-Agent") = some kv →
      fieldVal (logHTTPReqInfo (handlerReqInfo h r t resp0)) "userAgent" =
        some (.str kv.2)) ∧
    (r.headers.find? (fun kv => kv.1 == "Referer") = none →
      fieldVal (logHTTPReqInfo (handlerReqInfo h r t resp0)) "referer" =
        some (.str "")) ∧
    (∀ kv, r.headers.find? (fun kv2 => kv2.1 == "Referer") = some kv →
      fieldVal (logHTTPReqInfo (handlerReqInfo h r t resp0)) "referer" =
        some (.str kv.2)) := by
  refine ⟨?_, rfl, rfl, ?_, ?_, ?_, ?_⟩
  · rw [serveHTTP_of_normal _ _ _ _ _ hp]
    rfl
  · intro hnone
    rw [fieldVal_userAgent, handlerReqInfo_userAgent]
    simp [headerGet, hnone]
  · intro kv hfound
    rw [fieldVal_userAgent, handlerReqInfo_userAgent]
    simp [headerGet, hfound]
  · intro hnone
    rw [fieldVal_referer, handlerReqInfo_referer]
    simp [headerGet, hnone]
  · intro kv hfound
    rw [fieldVal_referer, handlerReqInfo_referer]
    simp [headerGet, hfound]

/-- Witness for C6: a request with no headers at all still carries both
fields, with empty-string values. -/
theorem absent_headers_empty_fields_witness :
    (silentHandler bareRequest).panics = false ∧
    bareRequest.headers.find? (fun kv => kv.1 == "User-Agent") = none ∧
    fieldVal (logHTTPReqInfo (handlerReqInfo silentHandler bareRequest 0 emptyResponse))
      "userAgent" = some (.str "") :=
  ⟨rfl, rfl,
    (absent_headers_empty_fields silentHandler { Pretty := false } bareRequest 0
      emptyResponse true rfl).2.2.2.1 rfl⟩

/-- Claim C7: the `duration` field of the emitted record is the non-negative
integer count of milliseconds of elapsed wall-clock time of the wrapped
invocation, and the records produced under `pretty` true and `pretty` false
are the same record, hence report the duration in the same unit. -/
theorem duration_milliseconds_nonneg (h : Handler) (r : Request) (t : Nat)
    (resp0 : Response) (sinkOk : Bool) (hp : (h r).panics = false) :
    (serveHTTP (LogRequestHandler h { Pretty := false }) r t resp0 sinkOk).records =
      [logHTTPReqInfo (handlerReqInfo h r t resp0)] ∧
    fieldVal (logHTTPReqInfo (handlerReqInfo h r t resp0)) "duration" =
      some (.int ((t / 1000000 : Nat) : Int)) ∧
    (0 : Int) ≤ ((t / 1000000 : Nat) : Int) ∧
    (serveHTTP (LogRequestHandler h { Pretty := true }) r t resp0 sinkOk).records =
      (serveHTTP (LogRequestHandler h { Pretty := false }) r t resp0 sinkOk).records := by
  refine ⟨?_, ?_, Int.natCast_nonneg _, ?_⟩
  · rw [serveHTTP_of_normal _ _ _ _ _ hp]
    rfl
  · rw [fieldVal_duration, handlerReqInfo_duration]
  · rw [serveHTTP_of_normal _ _ _ _ _ hp, serveHTTP_of_normal _ _ _ _ _ hp]
    rfl

/-- Witness for C7: an invocation that took 150000000 nanoseconds is logged
with duration 150 (milliseconds). -/
theorem duration_milliseconds_nonneg_witness :
    (okHandler sampleRequest).panics = false ∧
    fieldVal (logHTTPReqInfo (handlerReqInfo okHandler sampleRequest 150000000 emptyResponse))
      "duration" = some (.int 150) := by
  refine ⟨rfl, ?_⟩
  have h1 := (duration_milliseconds_nonneg okHandler sampleRequest 150000000
    emptyResponse true rfl).2.1
  exact h1.trans rfl

/-- Claim C8: field extraction never fails the request: for every request,
including one whose client address cannot be parsed, a complete record with
all eight canonical fields is emitted, the unparseable address yielding an
empty-string field; and whether the output-stream write succeeds or fails
changes neither the response, nor the termination mode, nor the record. -/
theorem extraction_total_and_sentinel (h : Handler) (opt : LogRequestHandlerOptions)
    (r : Request) (t : Nat) (resp0 : Response) (hp : (h r).panics = false) :
    (serveHTTP (LogRequestHandler h opt) r t resp0 true).records =
      [logHTTPReqInfo (handlerReqInfo h r t resp0)] ∧
    (logHTTPReqInfo (handlerReqInfo h r t resp0)).fields.map Prod.fst = requiredKeys ∧
    (requestGetRemoteAddress r = none →
      fieldVal (logHTTPReqInfo (handlerReqInfo h r t resp0)) "ipAddress" =
        some (.str "")) ∧
    (serveHTTP (LogRequestHandler h opt) r t resp0 false).response =
      (serveHTTP (LogRequestHandler h opt) r t resp0 true).response ∧
    (serveHTTP (LogRequestHandler h opt) r t resp0 false).panicked =
      (serveHTTP (LogRequestHandler h opt) r t resp0 true).panicked ∧
    (serveHTTP (LogRequestHandler h opt) r t resp0 false).records =
      (serveHTTP (LogRequestHandler h opt) r t resp0 true).records := by
  refine ⟨?_, rfl, ?_, ?_, ?_, ?_⟩
  · rw [serveHTTP_of_normal _ _ _ _ _ hp]
    rfl
  · intro hnone
    rw [fieldVal_ipAddress, handlerReqInfo_ipAddress, hnone]
    rfl
  · rw [serveHTTP_of_normal _ _ _ _ _ hp, serveHTTP_of_normal _ _ _ _ _ hp]
  · rw [serveHTTP_of_normal _ _ _ _ _ hp, serveHTTP_of_normal _ _ _ _ _ hp]
  · rw [serveHTTP_of_normal _ _ _ _ _ hp, serveHTTP_of_normal _ _ _ _ _ hp]

/-- Witness for C8: a request whose remote endpoint is not a parseable
address is still logged, with an empty ipAddress field. -/
theorem extraction_total_and_sentinel_witness :
    (silentHandler bareRequest).panics = false ∧
    requestGetRemoteAddress bareRequest = none ∧
    fieldVal (logHTTPReqInfo (handlerReqInfo silentHandler bareRequest 0 emptyResponse))
      "ipAddress" = some (.str "") := by
  refine ⟨rfl, ?_, ?_⟩
  · rfl
  · exact (extraction_total_and_sentinel silentHandler { Pretty := false } bareRequest 0
      emptyResponse rfl).2.2.1 rfl

/-- Claim C9: the `method` and `path` fields of the emitted record hold,
verbatim, the request's HTTP verb and its target as received (the target
string including any query string). -/
theorem method_path_verbatim (h : Handler) (opt : LogRequestHandlerOptions)
    (r : Request) (t : Nat) (resp0 : Response) (sinkOk : Bool)
    (hp : (h r).panics = false) :
    (serveHTTP (LogRequestHandler h opt) r t resp0 sinkOk).records =
      [logHTTPReqInfo (handlerReqInfo h r t resp0)] ∧
    fieldVal (logHTTPReqInfo (handlerReqInfo h r t resp0)) "method" =
      some (.str r.method) ∧
    fieldVal (logHTTPReqInfo (handlerReqInfo h r t resp0)) "path" =
      some (.str r.url) := by
  refine ⟨?_, ?_, ?_⟩
  · rw [serveHTTP_of_normal _ _ _ _ _ hp]
    rfl
  · rw [fieldVal_method, handlerReqInfo_method]
  · rw [fieldVal_path, handlerReqInfo_path]

/-- Witness for C9: a PUT to a target with a query string is logged with the
verbatim verb and the full target including the query. -/
theorem method_path_verbatim_witness :
    (silentHandler bareRequest).panics = false ∧
    fieldVal (logHTTPReqInfo (handlerReqInfo silentHandler bareRequest 0 emptyResponse))
      "path" = some (.str "/api/update?id=123&param=value") := by
  refine ⟨rfl, ?_⟩
  have h1 := (method_path_verbatim silentHandler { Pretty := false } bareRequest 0
    emptyResponse true rfl).2.2
  exact h1.trans rfl

/-- Claim C10: the record captured for a request is identical across the two
wrap-time `pretty` settings — `pretty` selects only the serialization, which
is fixed at the moment `LogRequestHandler` is called, and the emitted lines
are exactly the records rendered in that serialization. -/
theorem pretty_noninterference (h : Handler) (p1 p2 : Bool) (r : Request)
    (t : Nat) (resp0 : Response) (sinkOk : Bool) :
    (serveHTTP (LogRequestHandler h { Pretty := p1 }) r t resp0 sinkOk).records =
      (serveHTTP (LogRequestHandler h { Pretty := p2 }) r t resp0 sinkOk).records ∧
    (LogRequestHandler h { Pretty := p1 }).pretty = p1 ∧
    (serveHTTP (LogRequestHandler h { Pretty := p1 }) r t resp0 sinkOk).lines =
      (serveHTTP (LogRequestHandler h { Pretty := p1 }) r t resp0 sinkOk).records.map
        (serializeRecord p1) := by
  by_cases hp : (h r).panics
  · rw [serveHTTP_of_panic (LogRequestHandler h { Pretty := p1 }) r t resp0 sinkOk hp,
      serveHTTP_of_panic (LogRequestHandler h { Pretty := p2 }) r t resp0 sinkOk hp]
    exact ⟨rfl, rfl, rfl⟩
  · have hp2 : (h r).panics = false := Bool.not_eq_true _ |>.mp hp
    rw [serveHTTP_of_normal (LogRequestHandler h { Pretty := p1 }) r t resp0 sinkOk hp2,
      serveHTTP_of_normal (LogRequestHandler h { Pretty := p2 }) r t resp0 sinkOk hp2]
    exact ⟨rfl, rfl, rfl⟩
